import Mathlib

/-!
Shallow embedding of `src/ds8r/ds8r.py`: the `DS8R` session controller for the
DS8R electrical-stimulation device.  Device calls through the native DLL
(`DGD128_Set`, `DGD128_Get`, `DGD128_Trigger`) are modelled as events recorded
in a trace; status codes returned by the device are inputs to each operation;
`print` output is modelled as a list of strings.  Python integers are `Int`.
-/

namespace DS8R

/-- The eight stimulation-configuration fields held by a `DS8R` instance
(`self.mode`, …, `self.enabled` in `__init__`). -/
structure StimConfig where
  mode : Int
  polarity : Int
  source : Int
  demand : Int
  pulse_width : Int
  dwell : Int
  recovery : Int
  enabled : Int
deriving Repr, DecidableEq

/-- `DS8R.MODE_MONOPHASIC`. -/
def MODE_MONOPHASIC : Int := 1
/-- `DS8R.MODE_BIPHASIC`. -/
def MODE_BIPHASIC : Int := 2
/-- `DS8R.POLARITY_POSITIVE`. -/
def POLARITY_POSITIVE : Int := 1
/-- `DS8R.POLARITY_NEGATIVE`. -/
def POLARITY_NEGATIVE : Int := 2
/-- `DS8R.POLARITY_ALTERNATING`. -/
def POLARITY_ALTERNATING : Int := 3
/-- `DS8R.SOURCE_INTERNAL`. -/
def SOURCE_INTERNAL : Int := 1
/-- `DS8R.SOURCE_EXTERNAL`. -/
def SOURCE_EXTERNAL : Int := 2

/-- The configuration produced by `DS8R()` with no arguments: the default
values of `__init__` (mode=MODE_MONOPHASIC, polarity=POLARITY_POSITIVE,
source=SOURCE_INTERNAL, demand=20, pulse_width=100, dwell=1, recovery=100,
enabled=1). -/
def defaultConfig : StimConfig :=
  { mode := MODE_MONOPHASIC
  , polarity := POLARITY_POSITIVE
  , source := SOURCE_INTERNAL
  , demand := 20
  , pulse_width := 100
  , dwell := 1
  , recovery := 100
  , enabled := 1 }

/-- `DS8R(mode, polarity, source, demand, pulse_width, dwell, recovery, enabled)`:
construction stores the eight caller-supplied values verbatim on the instance
(lines 124–131 of the source); no check or clamping happens at assignment. -/
def construct (mode polarity source demand pulse_width dwell recovery enabled : Int) :
    StimConfig :=
  { mode := mode, polarity := polarity, source := source, demand := demand
  , pulse_width := pulse_width, dwell := dwell, recovery := recovery
  , enabled := enabled }

/-- One call into the native DLL, as issued by the controller. -/
inductive DeviceCall where
  | DGD128_Set (mode polarity source demand pulse_width dwell recovery enabled : Int)
  | DGD128_Get
  | DGD128_Trigger
deriving Repr, DecidableEq

/-- The `DGD128_Set` call built from the current configuration, exactly the
argument order of `upload_parameters` (lines 197–206). -/
def devSet (c : StimConfig) : DeviceCall :=
  DeviceCall.DGD128_Set c.mode c.polarity c.source c.demand c.pulse_width
    c.dwell c.recovery c.enabled

/-- Result of one controller operation: the instance's configuration after the
call, the device calls issued (in order), the `print` output, and the Python
return value. -/
structure OpResult (α : Type) where
  config : StimConfig
  calls : List DeviceCall
  prints : List String
  ret : α
deriving Repr

/-- `upload_parameters(self)` (lines 178–215): sends the current eight fields
to the device via `DGD128_Set`, prints the returned status code and a success
message, and deliberately never raises based on the returned value ("Do not
raise an exception based on return value").  `setStatus` is the status code the
device call returns. -/
def upload_parameters (c : StimConfig) (setStatus : Int) : OpResult Unit :=
  { config := c
  , calls := [devSet c]
  , prints := ["DGD128_Set returned: " ++ toString setStatus,
               "Parameters uploaded successfully."]
  , ret := () }

/-- `trigger_pulse(self)` (lines 217–234): calls `DGD128_Trigger`, prints the
returned status code and a success message, never raises based on the returned
value.  `trigStatus` is the status code the device call returns. -/
def trigger_pulse (c : StimConfig) (trigStatus : Int) : OpResult Unit :=
  { config := c
  , calls := [DeviceCall.DGD128_Trigger]
  , prints := ["DGD128_Trigger returned: " ++ toString trigStatus,
               "Pulse triggered successfully."]
  , ret := () }

/-- `set_enabled(self, enabled)` (lines 236–258): sets `self.enabled` to 1 if
`enabled` is truthy else 0, then calls `upload_parameters`, then prints a
status line. -/
def set_enabled (c : StimConfig) (enabled : Bool) (setStatus : Int) : OpResult Unit :=
  let c1 : StimConfig := { c with enabled := if enabled then 1 else 0 }
  let u := upload_parameters c1 setStatus
  { config := u.config
  , calls := u.calls
  , prints := u.prints ++
      [if enabled then "Device enabled successfully." else "Device disabled successfully."]
  , ret := () }

/-- The eight values the device reports through `DGD128_Get`'s out-parameters. -/
structure DeviceState where
  mode : Int
  polarity : Int
  source : Int
  demand : Int
  pulse_width : Int
  dwell : Int
  recovery : Int
  enabled : Int
deriving Repr, DecidableEq

/-- The `state` dictionary `get_state` builds from the device-reported values
(lines 300–310), as a configuration record. -/
def configOfDevice (d : DeviceState) : StimConfig :=
  { mode := d.mode, polarity := d.polarity, source := d.source
  , demand := d.demand, pulse_width := d.pulse_width, dwell := d.dwell
  , recovery := d.recovery, enabled := d.enabled }

/-- The per-field lines printed by `get_state` when `verbose` is true
(`f"{key.capitalize()}: {value}"` over the `state` dict, lines 326–327). -/
def statePrints (s : StimConfig) : List String :=
  ["Mode: " ++ toString s.mode,
   "Polarity: " ++ toString s.polarity,
   "Source: " ++ toString s.source,
   "Demand: " ++ toString s.demand,
   "Pulse_width: " ++ toString s.pulse_width,
   "Dwell: " ++ toString s.dwell,
   "Recovery: " ++ toString s.recovery,
   "Enabled: " ++ toString s.enabled]

/-- `get_state(self, verbose=False)` (lines 260–332): calls `DGD128_Get`,
builds the `state` dict from the eight out-parameters, assigns every one of the
eight instance fields from `state` (lines 313–320), prints diagnostics only
when `verbose`, and returns `state`.  `dev` is what the device reports and
`getStatus` the status code of the call; the previous configuration `c` is
fully overwritten. -/
def get_state (c : StimConfig) (dev : DeviceState) (getStatus : Int)
    (verbose : Bool) : OpResult StimConfig :=
  let state := configOfDevice dev
  { config := state
  , calls := [DeviceCall.DGD128_Get]
  , prints :=
      if verbose then
        ["DGD128_Get returned: " ++ toString getStatus,
         "Current device parameters:"] ++ statePrints state
      else []
  , ret := state }

/-- `safe_limit = 10` — the literal bound in `run` (line 352), "Safe maximum
demand without forcing". -/
def safe_limit : Int := 10

/-- The `ValueError` message `run` raises (lines 357–360), built from the
offending demand and the limit exactly as the f-string does. -/
def runErrorMessage (demand limit : Int) : String :=
  "Demand value " ++ toString demand ++ " exceeds safe limit of " ++
  toString limit ++ " (10.0 mA). " ++
  "To apply a current greater than 10.0 mA, use \"run(force=True)\"."

/-- The error `run` can raise. -/
inductive RunError where
  | ValueError (msg : String)
deriving Repr, DecidableEq

/-- Outcome of `run`: configuration after the call, device calls issued in
order, print output, and normal return vs. raised error. -/
structure RunOutcome where
  config : StimConfig
  calls : List DeviceCall
  prints : List String
  result : Except RunError Unit
deriving Repr

/-- `run(self, force=False)` (lines 334–360): if `self.demand <= safe_limit or
force`, call `upload_parameters()` then `trigger_pulse()`; otherwise raise
`ValueError` with a message naming the demand value and the limit, touching
neither the device nor the configuration. -/
def run (c : StimConfig) (force : Bool) (setStatus trigStatus : Int) : RunOutcome :=
  if c.demand ≤ safe_limit ∨ force = true then
    let u := upload_parameters c setStatus
    let t := trigger_pulse u.config trigStatus
    { config := t.config
    , calls := u.calls ++ t.calls
    , prints := u.prints ++ t.prints
    , result := Except.ok () }
  else
    { config := c
    , calls := []
    , prints := []
    , result := Except.error (RunError.ValueError (runErrorMessage c.demand safe_limit)) }

/-- Names for the eight configuration fields, for attribute-style access. -/
inductive Field where
  | mode | polarity | source | demand | pulse_width | dwell | recovery | enabled
deriving Repr, DecidableEq

/-- Attribute read `getattr(self, f)`. -/
def getField (c : StimConfig) : Field → Int
  | .mode => c.mode
  | .polarity => c.polarity
  | .source => c.source
  | .demand => c.demand
  | .pulse_width => c.pulse_width
  | .dwell => c.dwell
  | .recovery => c.recovery
  | .enabled => c.enabled

/-- Attribute write `setattr(self, f, v)`: plain Python attribute assignment,
which stores the value verbatim — the class defines no property, `__setattr__`
or validation hook, so assignment can neither fail nor alter the value. -/
def setField (c : StimConfig) (f : Field) (v : Int) : StimConfig :=
  match f with
  | .mode => { c with mode := v }
  | .polarity => { c with polarity := v }
  | .source => { c with source := v }
  | .demand => { c with demand := v }
  | .pulse_width => { c with pulse_width := v }
  | .dwell => { c with dwell := v }
  | .recovery => { c with recovery := v }
  | .enabled => { c with enabled := v }

/-- Modelled from the spec: the repository contains no `validate` function; the
spec's Parameter Model specifies a per-field domain check against the domain
table of its section 3 (mode in {1,2}, polarity in {1,2,3}, source in {1,2},
demand in 1..150, pulseWidth in 50..2000 and a multiple of 10, dwell in 1..990,
recovery in 10..100, enabled in {0,1}). -/
def fieldInDomain (f : Field) (v : Int) : Prop :=
  match f with
  | .mode => v = 1 ∨ v = 2
  | .polarity => v = 1 ∨ v = 2 ∨ v = 3
  | .source => v = 1 ∨ v = 2
  | .demand => 1 ≤ v ∧ v ≤ 150
  | .pulse_width => 50 ≤ v ∧ v ≤ 2000 ∧ v % 10 = 0
  | .dwell => 1 ≤ v ∧ v ≤ 990
  | .recovery => 10 ≤ v ∧ v ≤ 100
  | .enabled => v = 0 ∨ v = 1

instance (f : Field) (v : Int) : Decidable (fieldInDomain f v) := by
  cases f <;> simp only [fieldInDomain] <;> infer_instance

/-- Modelled from the spec: the reason string attached to a violation of a
field's domain. -/
def fieldReason : Field → String
  | .mode => "mode must be 1 (Monophasic) or 2 (Biphasic)"
  | .polarity => "polarity must be 1 (Positive), 2 (Negative) or 3 (Alternating)"
  | .source => "source must be 1 (Internal) or 2 (External)"
  | .demand => "demand must be between 1 and 150"
  | .pulse_width => "pulse_width must be between 50 and 2000 and a multiple of 10"
  | .dwell => "dwell must be between 1 and 990"
  | .recovery => "recovery must be between 10 and 100"
  | .enabled => "enabled must be 0 or 1"

/-- Modelled from the spec: the repository contains no `validate`; the spec's
Parameter Model specifies `validate(config) -> ValidationResult`, checking each
field against its domain table and returning Ok (here: the empty list) or a
list of (field, reason) violations, without mutating the configuration. -/
def validate (c : StimConfig) : List (Field × String) :=
  (if fieldInDomain .mode c.mode then [] else [(Field.mode, fieldReason .mode)]) ++
  (if fieldInDomain .polarity c.polarity then [] else [(Field.polarity, fieldReason .polarity)]) ++
  (if fieldInDomain .source c.source then [] else [(Field.source, fieldReason .source)]) ++
  (if fieldInDomain .demand c.demand then [] else [(Field.demand, fieldReason .demand)]) ++
  (if fieldInDomain .pulse_width c.pulse_width then [] else [(Field.pulse_width, fieldReason .pulse_width)]) ++
  (if fieldInDomain .dwell c.dwell then [] else [(Field.dwell, fieldReason .dwell)]) ++
  (if fieldInDomain .recovery c.recovery then [] else [(Field.recovery, fieldReason .recovery)]) ++
  (if fieldInDomain .enabled c.enabled then [] else [(Field.enabled, fieldReason .enabled)])

/-- Modelled from the spec: a configuration with every field inside its
documented domain. -/
def ValidConfig (c : StimConfig) : Prop :=
  fieldInDomain .mode c.mode ∧ fieldInDomain .polarity c.polarity ∧
  fieldInDomain .source c.source ∧ fieldInDomain .demand c.demand ∧
  fieldInDomain .pulse_width c.pulse_width ∧ fieldInDomain .dwell c.dwell ∧
  fieldInDomain .recovery c.recovery ∧ fieldInDomain .enabled c.enabled

instance (c : StimConfig) : Decidable (ValidConfig c) := by
  unfold ValidConfig; infer_instance

/-- C1: the claim states that `run(force=false)` proceeds whenever demand ≤ 100
and raises the interlock error only for demand > 100.  The code's `safe_limit`
is 10 raw units, so `run(force=false)` at demand=100 — which the claim says
succeeds — raises `ValueError` with no device call, as does demand=11; only
the `force=true` half (demand=150 succeeds) holds.  This contradicts the
code's own documentation: the class docstring defines raw 1 = 0.1 mA and shows
`run()` after default construction (demand=20), and the error message calls
the limit of 10 "10.0 mA", which is raw 100. -/
theorem run_threshold_bug_eval :
    (run { defaultConfig with demand := 100 } false 0 0).result =
      Except.error (RunError.ValueError (runErrorMessage 100 safe_limit)) ∧
    (run { defaultConfig with demand := 100 } false 0 0).calls = [] ∧
    (run { defaultConfig with demand := 11 } false 0 0).result =
      Except.error (RunError.ValueError (runErrorMessage 11 safe_limit)) ∧
    (run { defaultConfig with demand := 101 } false 0 0).result =
      Except.error (RunError.ValueError (runErrorMessage 101 safe_limit)) ∧
    (run { defaultConfig with demand := 150 } true 0 0).result = Except.ok () :=
  ⟨rfl, rfl, rfl, rfl, rfl⟩

/-- C2: the claim states that a controller constructed with no arguments holds
the default configuration (1,1,1,20,100,1,100,1) — which the code satisfies —
and that `run()` on it succeeds with one upload followed by one trigger.  But
the default demand of 20 exceeds the code's `safe_limit` of 10, so `run()` on
a freshly-constructed controller raises `ValueError` and performs no device
call, contradicting the class docstring's own usage example
(`device = DS8R()` followed by `device.run()`). -/
theorem default_run_raises_eval :
    defaultConfig = StimConfig.mk 1 1 1 20 100 1 100 1 ∧
    (run defaultConfig false 0 0).result =
      Except.error (RunError.ValueError (runErrorMessage 20 safe_limit)) ∧
    (run defaultConfig false 0 0).calls = [] :=
  ⟨rfl, rfl, rfl⟩

/-- C3: when `run(force=false)` raises the interlock `ValueError`, no device
call is made, the configuration is left exactly as it was, the error's message
is built from the offending demand value and the limit, and the same call with
`force=true` proceeds (upload then trigger). -/
theorem run_interlock_failure_atomic (c : StimConfig) (s t : Int) (e : RunError)
    (h : (run c false s t).result = Except.error e) :
    (run c false s t).calls = [] ∧
    (run c false s t).config = c ∧
    e = RunError.ValueError (runErrorMessage c.demand safe_limit) ∧
    (run c true s t).result = Except.ok () ∧
    (run c true s t).calls = [devSet c, DeviceCall.DGD128_Trigger] := by
  unfold run at h ⊢
  by_cases hd : c.demand ≤ safe_limit
  · simp [hd] at h
  · simp only [hd, Bool.false_eq_true, or_self, or_true, if_false, if_true,
      false_or, if_neg, not_false_iff] at h ⊢
    simp [upload_parameters, trigger_pulse] at h ⊢
    exact h.symm

/-- Witness for C3 at demand=11 (the smallest demand the code rejects). -/
theorem run_interlock_failure_atomic_witness :
    (run { defaultConfig with demand := 11 } false 0 0).calls = [] ∧
    (run { defaultConfig with demand := 11 } false 0 0).config =
      { defaultConfig with demand := 11 } ∧
    (run { defaultConfig with demand := 11 } true 0 0).result = Except.ok () :=
  ⟨(run_interlock_failure_atomic { defaultConfig with demand := 11 } 0 0
      (RunError.ValueError (runErrorMessage 11 safe_limit)) rfl).1,
   (run_interlock_failure_atomic { defaultConfig with demand := 11 } 0 0
      (RunError.ValueError (runErrorMessage 11 safe_limit)) rfl).2.1,
   (run_interlock_failure_atomic { defaultConfig with demand := 11 } 0 0
      (RunError.ValueError (runErrorMessage 11 safe_limit)) rfl).2.2.2.1⟩

/-- C4: on `run`'s success branch, the device calls are exactly the upload
(`DGD128_Set` with the current fields) followed by the trigger
(`DGD128_Trigger`), each once and in that order; and the sequence of calls does
not depend on the status codes the device returns, so the upload's status never
gates the trigger. -/
theorem run_success_upload_then_trigger (c : StimConfig) (force : Bool)
    (s t s2 t2 : Int) (h : (run c force s t).result = Except.ok ()) :
    (run c force s t).calls = [devSet c, DeviceCall.DGD128_Trigger] ∧
    (run c force s2 t2).calls = (run c force s t).calls := by
  unfold run at h ⊢
  by_cases hc : c.demand ≤ safe_limit ∨ force = true
  · simp [hc, upload_parameters, trigger_pulse]
  · simp [hc] at h

/-- Witness for C4 with defaults and force=true. -/
theorem run_success_upload_then_trigger_witness :
    (run defaultConfig true 0 0).calls =
      [devSet defaultConfig, DeviceCall.DGD128_Trigger] ∧
    (run defaultConfig true 5 7).calls = (run defaultConfig true 0 0).calls :=
  ⟨(run_success_upload_then_trigger defaultConfig true 0 0 5 7 rfl).1,
   (run_success_upload_then_trigger defaultConfig true 0 0 5 7 rfl).2⟩

/-- C5: for every prior configuration and every device-reported 8-tuple,
`get_state` replaces the whole configuration with the device-reported values,
independent of the prior configuration, and returns exactly that state; the
`verbose` flag changes neither the resulting configuration, nor the return
value, nor the device calls issued. -/
theorem get_state_full_replace (c c2 : StimConfig) (dev : DeviceState)
    (g : Int) (verbose : Bool) :
    (get_state c dev g verbose).config = configOfDevice dev ∧
    (get_state c dev g verbose).ret = configOfDevice dev ∧
    (get_state c dev g verbose).config = (get_state c2 dev g verbose).config ∧
    (get_state c dev g true).config = (get_state c dev g false).config ∧
    (get_state c dev g true).ret = (get_state c dev g false).ret ∧
    (get_state c dev g true).calls = (get_state c dev g false).calls :=
  ⟨rfl, rfl, rfl, rfl, rfl, rfl⟩

/-- C6: `set_enabled(flag)` sets the `enabled` field to 1 when `flag` is true
and 0 when false, leaves the other seven fields unchanged, issues exactly one
upload (`DGD128_Set` with the updated fields) and never a trigger. -/
theorem set_enabled_one_upload_no_trigger (c : StimConfig) (flag : Bool) (s : Int) :
    (set_enabled c flag s).config.enabled = (if flag then 1 else 0) ∧
    (set_enabled c flag s).config.mode = c.mode ∧
    (set_enabled c flag s).config.polarity = c.polarity ∧
    (set_enabled c flag s).config.source = c.source ∧
    (set_enabled c flag s).config.demand = c.demand ∧
    (set_enabled c flag s).config.pulse_width = c.pulse_width ∧
    (set_enabled c flag s).config.dwell = c.dwell ∧
    (set_enabled c flag s).config.recovery = c.recovery ∧
    (set_enabled c flag s).calls =
      [devSet { c with enabled := if flag then 1 else 0 }] ∧
    DeviceCall.DGD128_Trigger ∉ (set_enabled c flag s).calls := by
  cases flag <;> simp [set_enabled, upload_parameters, devSet]

/-- C7 (the repository has no validator; `validate` is modelled from the spec's
domain table): for every configuration with all eight fields in their
documented domains, `validate` returns Ok (the empty violation list); and for
each of the spec's one-unit-outside mutations of a single field (demand=0,
demand=151, pulse_width=55, pulse_width=105, dwell=0, dwell=991, recovery=9,
recovery=101), `validate` reports exactly that field and no others. -/
theorem validate_ok_and_single_violations (c : StimConfig) (h : ValidConfig c) :
    validate c = [] ∧
    validate { c with demand := 0 } = [(Field.demand, fieldReason .demand)] ∧
    validate { c with demand := 151 } = [(Field.demand, fieldReason .demand)] ∧
    validate { c with pulse_width := 55 } =
      [(Field.pulse_width, fieldReason .pulse_width)] ∧
    validate { c with pulse_width := 105 } =
      [(Field.pulse_width, fieldReason .pulse_width)] ∧
    validate { c with dwell := 0 } = [(Field.dwell, fieldReason .dwell)] ∧
    validate { c with dwell := 991 } = [(Field.dwell, fieldReason .dwell)] ∧
    validate { c with recovery := 9 } = [(Field.recovery, fieldReason .recovery)] ∧
    validate { c with recovery := 101 } =
      [(Field.recovery, fieldReason .recovery)] := by
  simp only [ValidConfig, fieldInDomain] at h
  obtain ⟨h1, h2, h3, h4, h5, h6, h7, h8⟩ := h
  refine ⟨?_, ?_, ?_, ?_, ?_, ?_, ?_, ?_, ?_⟩ <;>
    simp [validate, fieldInDomain, h1, h2, h3, h4, h5, h6, h7, h8]

/-- Witness for C7 at the default configuration (which is valid). -/
theorem validate_witness :
    ValidConfig defaultConfig ∧
    validate defaultConfig = [] ∧
    validate { defaultConfig with demand := 151 } =
      [(Field.demand, fieldReason .demand)] :=
  ⟨by decide,
   (validate_ok_and_single_violations defaultConfig (by decide)).1,
   (validate_ok_and_single_violations defaultConfig (by decide)).2.2.1⟩

/-- C8: `upload_parameters` leaves all eight local fields unchanged, issues
exactly the one `DGD128_Set` call built verbatim from them, and completes
normally for every status-code the device call returns — the status appears
only in the diagnostic print, never in the configuration, the calls, or the
return value. -/
theorem upload_parameters_frame (c : StimConfig) (s s2 : Int) :
    (upload_parameters c s).config = c ∧
    (upload_parameters c s).calls = [devSet c] ∧
    (upload_parameters c s).calls = (upload_parameters c s2).calls ∧
    (upload_parameters c s).config = (upload_parameters c s2).config ∧
    (upload_parameters c s).ret = () ∧
    (upload_parameters c s).prints =
      ["DGD128_Set returned: " ++ toString s, "Parameters uploaded successfully."] :=
  ⟨rfl, rfl, rfl, rfl, rfl, rfl⟩

/-- C9: attribute assignment stores any integer verbatim in the named field and
leaves the others untouched (no failure, no clamping); construction stores all
eight caller-supplied values verbatim; `upload_parameters` transmits them
verbatim; and `run`'s outcome is governed solely by the demand interlock —
`run` succeeds iff demand ≤ safe_limit or force, with no other value check. -/
theorem assignment_verbatim_no_validation (c : StimConfig) (f g : Field) (v : Int)
    (m p so d pw dw r e : Int) (force : Bool) (s t : Int) :
    getField (setField c f v) f = v ∧
    getField (setField c f v) g = (if g = f then v else getField c g) ∧
    construct m p so d pw dw r e = StimConfig.mk m p so d pw dw r e ∧
    (upload_parameters (construct m p so d pw dw r e) s).calls =
      [DeviceCall.DGD128_Set m p so d pw dw r e] ∧
    ((run c force s t).result = Except.ok () ↔
      (c.demand ≤ safe_limit ∨ force = true)) := by
  refine ⟨?_, ?_, rfl, rfl, ?_⟩
  · cases f <;> rfl
  · cases f <;> cases g <;> simp [getField, setField]
  · unfold run
    by_cases hc : c.demand ≤ safe_limit ∨ force = true
    · simp [hc]
    · simp [hc]

/-- C10: every demand at or below the code's interlock limit — including zero
and negative values outside the documented 1..150 domain — passes the
interlock: `run(force=false)` succeeds and performs the upload followed by the
trigger, the interlock being a pure upper-bound comparison on demand with no
lower-bound or domain check anywhere on the path. -/
theorem run_accepts_any_demand_below_limit (c : StimConfig) (s t : Int)
    (h : c.demand ≤ safe_limit) :
    (run c false s t).result = Except.ok () ∧
    (run c false s t).calls = [devSet c, DeviceCall.DGD128_Trigger] ∧
    (run c false s t).config = c := by
  unfold run
  simp [h, upload_parameters, trigger_pulse]

/-- Witness for C10 at the out-of-domain demand −5. -/
theorem run_accepts_any_demand_below_limit_witness :
    (-5 : Int) ≤ safe_limit ∧
    (run { defaultConfig with demand := -5 } false 0 0).result = Except.ok () ∧
    (run { defaultConfig with demand := -5 } false 0 0).calls =
      [devSet { defaultConfig with demand := -5 }, DeviceCall.DGD128_Trigger] :=
  ⟨by decide,
   (run_accepts_any_demand_below_limit { defaultConfig with demand := -5 } 0 0
      (by decide)).1,
   (run_accepts_any_demand_below_limit { defaultConfig with demand := -5 } 0 0
      (by decide)).2.1⟩

end DS8R
